import Mathlib

/-!
Shallow embedding of vpp's session lookup engine
(src/vnet/session/session_lookup.c) and proofs about its key encoding,
lookup fallback chains, thread-affinity contract and table registry.

Machine integers are modelled as `Nat` with explicit `% 2^w` where the C
code truncates; the bihash maps are modelled as functions from the encoded
key to `Option Nat` (the stored 64-bit value); pointers returned by the
lookup functions are modelled by tagged references recording which
accessor produced them and with which arguments.
-/

/-- Two to the 16th, the span of a u16 port field. -/
def pow16 : Nat := 2 ^ 16

/-- Two to the 32nd, the span of a u32 field. -/
def pow32 : Nat := 2 ^ 32

/-- Truncation to 32 bits, the C cast `(u32) x`. -/
def u32_of (x : Nat) : Nat := x % pow32

/-- fib_protocol_t FIB_PROTOCOL_IP4. -/
def FIB_PROTOCOL_IP4 : Nat := 0

/-- fib_protocol_t FIB_PROTOCOL_IP6. -/
def FIB_PROTOCOL_IP6 : Nat := 1

/-- session_lookup_result_t SESSION_LOOKUP_RESULT_NONE. -/
def SESSION_LOOKUP_RESULT_NONE : Nat := 0

/-- session_lookup_result_t SESSION_LOOKUP_RESULT_WRONG_THREAD. -/
def SESSION_LOOKUP_RESULT_WRONG_THREAD : Nat := 1

/-- session_lookup_result_t SESSION_LOOKUP_RESULT_FILTERED. -/
def SESSION_LOOKUP_RESULT_FILTERED : Nat := 2

/-- HALF_OPEN_LOOKUP_INVALID_VALUE, the all-ones u64. -/
def HALF_OPEN_LOOKUP_INVALID_VALUE : Nat := 2 ^ 64 - 1

/-- Modelled from the spec: SESSION_INVALID_HANDLE from session_types.h,
which is not under src/. The spec says a reserved all-ones 64-bit value
denotes invalid/none. -/
def SESSION_INVALID_HANDLE : Nat := 2 ^ 64 - 1

/-- Modelled from the spec: SESSION_DROP_HANDLE from session_types.h, which
is not under src/. A distinguished handle value denoting the drop action,
distinct from every valid handle and from SESSION_INVALID_HANDLE. -/
def SESSION_DROP_HANDLE : Nat := 2 ^ 64 - 2

/-- Modelled from the spec: SESSION_RULES_TABLE_INVALID_INDEX from
session_rules_table.h, which is not under src/. The action code meaning
no rule matched; an all-ones u32. -/
def SESSION_RULES_TABLE_INVALID_INDEX : Nat := 2 ^ 32 - 1

/-- Modelled from the spec: SESSION_RULES_TABLE_ACTION_DROP from
session_rules_table.h, which is not under src/. The action code for drop. -/
def SESSION_RULES_TABLE_ACTION_DROP : Nat := 2 ^ 32 - 2

/-- Modelled from the spec: SESSION_RULES_TABLE_ACTION_ALLOW from
session_rules_table.h, which is not under src/. The action code for allow. -/
def SESSION_RULES_TABLE_ACTION_ALLOW : Nat := 2 ^ 32 - 3

/-- Encoded 16-octet IPv4 session key: the two u64 words `key[0]`, `key[1]`
of `session_kv4_t` (clib_bihash_kv_16_8_t). -/
structure session_kv4_t where
  key0 : Nat
  key1 : Nat
deriving DecidableEq, Repr

/-- Encoded 48-octet IPv6 session key: the six u64 words of
`session_kv6_t` (clib_bihash_kv_48_8_t). -/
structure session_kv6_t where
  key0 : Nat
  key1 : Nat
  key2 : Nat
  key3 : Nat
  key4 : Nat
  key5 : Nat
deriving DecidableEq, Repr

/-- IPv6 address as its two u64 words (`as_u64[0]`, `as_u64[1]`). -/
structure ip6_address_t where
  as_u64_0 : Nat
  as_u64_1 : Nat
deriving DecidableEq, Repr

/-- make_v4_ss_kv: encode the IPv4 connection key.
`key[0] = rmt << 32 | lcl`, `key[1] = proto << 32 | rmt_port << 16 | lcl_port`.
The or of disjoint bit ranges is written as addition, exact for in-range
fields (lcl, rmt < 2^32; ports < 2^16; proto < 2^8). -/
def make_v4_ss_kv (lcl rmt lcl_port rmt_port proto : Nat) : session_kv4_t :=
  { key0 := rmt * pow32 + lcl
    key1 := proto * pow32 + rmt_port * pow16 + lcl_port }

/-- make_v4_listener_kv: encode the IPv4 listener key.
`key[0] = lcl`, `key[1] = proto << 32 | lcl_port`. -/
def make_v4_listener_kv (lcl lcl_port proto : Nat) : session_kv4_t :=
  { key0 := lcl
    key1 := proto * pow32 + lcl_port }

/-- make_v4_proxy_kv: encode the IPv4 proxy key.
`key[0] = lcl`, `key[1] = proto << 32`. -/
def make_v4_proxy_kv (lcl proto : Nat) : session_kv4_t :=
  { key0 := lcl
    key1 := proto * pow32 }

/-- make_v6_ss_kv: encode the IPv6 connection key. -/
def make_v6_ss_kv (lcl rmt : ip6_address_t) (lcl_port rmt_port proto : Nat) :
    session_kv6_t :=
  { key0 := lcl.as_u64_0
    key1 := lcl.as_u64_1
    key2 := rmt.as_u64_0
    key3 := rmt.as_u64_1
    key4 := proto * pow32 + rmt_port * pow16 + lcl_port
    key5 := 0 }

/-- make_v6_listener_kv: encode the IPv6 listener key. -/
def make_v6_listener_kv (lcl : ip6_address_t) (lcl_port proto : Nat) :
    session_kv6_t :=
  { key0 := lcl.as_u64_0
    key1 := lcl.as_u64_1
    key2 := 0
    key3 := 0
    key4 := proto * pow32 + lcl_port
    key5 := 0 }

/-- make_v6_proxy_kv: encode the IPv6 proxy key. -/
def make_v6_proxy_kv (lcl : ip6_address_t) (proto : Nat) : session_kv6_t :=
  { key0 := lcl.as_u64_0
    key1 := lcl.as_u64_1
    key2 := 0
    key3 := 0
    key4 := proto * pow32
    key5 := 0 }

/-- Zero the remote fields of an encoded IPv4 key: clear the `dst` address
(high 32 bits of `key[0]`) and the `dst_port` (bits 16..31 of `key[1]`),
per the field layout of `v4_connection_key_t`. -/
def zero_remote_v4 (kv : session_kv4_t) : session_kv4_t :=
  { key0 := kv.key0 % pow32
    key1 := kv.key1 / pow32 * pow32 + kv.key1 % pow16 }

/-- Zero the local-address field of an encoded IPv4 key (all of `key[0]`
below bit 32 is local; clearing the whole local address leaves the dst in
the high bits, here applied to listener keys whose dst is already 0). -/
def zero_local_addr_v4 (kv : session_kv4_t) : session_kv4_t :=
  { key0 := kv.key0 / pow32 * pow32
    key1 := kv.key1 }

/-- Zero both port fields (bits 0..31 of `key[1]`) of an encoded IPv4 key. -/
def zero_ports_v4 (kv : session_kv4_t) : session_kv4_t :=
  { key0 := kv.key0
    key1 := kv.key1 / pow32 * pow32 }

/-- Zero the remote fields of an encoded IPv6 key: clear the `dst` address
words `key[2]`, `key[3]` and the `dst_port` (bits 16..31 of `key[4]`). -/
def zero_remote_v6 (kv : session_kv6_t) : session_kv6_t :=
  { kv with
    key2 := 0
    key3 := 0
    key4 := kv.key4 / pow32 * pow32 + kv.key4 % pow16 }

/-- Zero the local-address words `key[0]`, `key[1]` of an encoded IPv6 key. -/
def zero_local_addr_v6 (kv : session_kv6_t) : session_kv6_t :=
  { kv with key0 := 0, key1 := 0 }

/-- Zero both port fields (bits 0..31 of `key[4]`) of an encoded IPv6 key. -/
def zero_ports_v6 (kv : session_kv6_t) : session_kv6_t :=
  { kv with key4 := kv.key4 / pow32 * pow32 }

/-- Modelled from the spec: the external Rules Table
(session_rules_table.c, not under src/) at its interface boundary:
`lookup(proto, lcl, rmt, lcl_port, rmt_port) -> action_code`, one matcher
per address family, attached to a session table through `srtg_handle`. -/
structure session_rules_table_t where
  lookup4 : Nat → Nat → Nat → Nat → Nat → Nat
  lookup6 : Nat → ip6_address_t → ip6_address_t → Nat → Nat → Nat

/-- A session table: the four independent hash maps (established and
half-open, per family) and the optional rules-table handle
(`srtg_handle == SESSION_SRTG_HANDLE_INVALID` is `none`). Maps are
modelled as functions from encoded key to the stored 64-bit value. -/
structure session_table_t where
  v4_session_hash : session_kv4_t → Option Nat
  v6_session_hash : session_kv6_t → Option Nat
  v4_half_open_hash : session_kv4_t → Option Nat
  v6_half_open_hash : session_kv6_t → Option Nat
  srtg_handle : Option session_rules_table_t
  active_fib_proto : Nat

/-- Modelled from the spec: session_table_init from session_table.c (not
under src/) produces a table with the four maps empty and no rules table. -/
def session_table_init (fib_proto : Nat) : session_table_t :=
  { v4_session_hash := fun _ => none
    v6_session_hash := fun _ => none
    v4_half_open_hash := fun _ => none
    v6_half_open_hash := fun _ => none
    srtg_handle := none
    active_fib_proto := fib_proto }

/-- The global lookup state: the table pool (session_table.c's
`lookup_tables`, a table reference being its pool index) and the two
parallel `fib_index_to_table_index` registries, with the `~0` sentinel and
out-of-range vector entries both modelled as `none`. -/
structure session_lookup_state where
  lookup_tables : List session_table_t
  fib_index_to_table_index : Nat → Nat → Option Nat

/-- Modelled from the spec: session_table_get from session_table.c (not
under src/): index the table pool, none for a free/invalid index. -/
def session_table_get (s : session_lookup_state) (table_index : Nat) :
    Option session_table_t :=
  s.lookup_tables.get? table_index

/-- session_table_is_alloced: the registry maps the pair to a table index. -/
def session_table_is_alloced (s : session_lookup_state)
    (fib_proto fib_index : Nat) : Bool :=
  (s.fib_index_to_table_index fib_proto fib_index).isSome

/-- session_table_get_or_alloc: return the mapped table index, or allocate
a fresh table from the pool and publish its index in the registry. The
worker barrier and spinlock of the C code serialize this critical section;
the embedding is the resulting sequential behavior. Returns the table
reference (pool index) and the new state. -/
def session_table_get_or_alloc (s : session_lookup_state)
    (fib_proto fib_index : Nat) : Nat × session_lookup_state :=
  match s.fib_index_to_table_index fib_proto fib_index with
  | some table_index => (table_index, s)
  | none =>
    let table_index := s.lookup_tables.length
    (table_index,
      { lookup_tables := s.lookup_tables ++ [session_table_init fib_proto]
        fib_index_to_table_index := fun p i =>
          if p = fib_proto ∧ i = fib_index then some table_index
          else s.fib_index_to_table_index p i })

/-- session_table_get_for_fib_index: non-allocating resolution; none when
the registry has no entry or the entry is a free pool index. -/
def session_table_get_for_fib_index (s : session_lookup_state)
    (fib_proto fib_index : Nat) : Option session_table_t :=
  match s.fib_index_to_table_index fib_proto fib_index with
  | some table_index => session_table_get s table_index
  | none => none

/-- A transport connection as the lookup functions see it: family
discriminant, both addresses, ports, protocol and fib index
(transport_connection_t fields used by session_lookup.c). -/
structure transport_connection_t where
  is_ip4 : Bool
  lcl_ip4 : Nat
  rmt_ip4 : Nat
  lcl_ip6 : ip6_address_t
  rmt_ip6 : ip6_address_t
  lcl_port : Nat
  rmt_port : Nat
  proto : Nat
  fib_index : Nat

/-- transport_connection_fib_proto: family discriminant of a connection. -/
def transport_connection_fib_proto (tc : transport_connection_t) : Nat :=
  if tc.is_ip4 then FIB_PROTOCOL_IP4 else FIB_PROTOCOL_IP6

/-- make_v4_ss_kv_from_tc: connection key of a v4 transport connection. -/
def make_v4_ss_kv_from_tc (tc : transport_connection_t) : session_kv4_t :=
  make_v4_ss_kv tc.lcl_ip4 tc.rmt_ip4 tc.lcl_port tc.rmt_port tc.proto

/-- make_v6_ss_kv_from_tc: connection key of a v6 transport connection. -/
def make_v6_ss_kv_from_tc (tc : transport_connection_t) : session_kv6_t :=
  make_v6_ss_kv tc.lcl_ip6 tc.rmt_ip6 tc.lcl_port tc.rmt_port tc.proto

/-- session_table_get_or_alloc_for_connection. -/
def session_table_get_or_alloc_for_connection (s : session_lookup_state)
    (tc : transport_connection_t) : Nat × session_lookup_state :=
  session_table_get_or_alloc s (transport_connection_fib_proto tc) tc.fib_index

/-- session_table_get_for_connection: non-allocating resolution. -/
def session_table_get_for_connection (s : session_lookup_state)
    (tc : transport_connection_t) : Option session_table_t :=
  session_table_get_for_fib_index s (transport_connection_fib_proto tc)
    tc.fib_index

/-- A session endpoint (session_endpoint_t fields used here): family,
address, port, transport protocol, fib index. -/
structure session_endpoint_t where
  is_ip4 : Bool
  ip4 : Nat
  ip6 : ip6_address_t
  port : Nat
  transport_proto : Nat
  fib_index : Nat

/-- Modelled from the spec: the bihash add operation
(clib_bihash_add_del with is_add = 1, bihash_template.c not under src/):
insert-or-replace, returning 0 for success. -/
def clib_bihash_add (m : session_kv4_t → Option Nat) (kv : session_kv4_t)
    (value : Nat) : Int × (session_kv4_t → Option Nat) :=
  (0, fun k => if k = kv then some value else m k)

/-- Modelled from the spec: the bihash delete operation
(clib_bihash_add_del with is_add = 0): remove the key, 0 when it was
present, nonzero when absent. -/
def clib_bihash_del (m : session_kv4_t → Option Nat) (kv : session_kv4_t) :
    Int × (session_kv4_t → Option Nat) :=
  match m kv with
  | some _ => (0, fun k => if k = kv then none else m k)
  | none => (-3, m)

/-- Modelled from the spec: the v6 bihash add operation. -/
def clib_bihash_add6 (m : session_kv6_t → Option Nat) (kv : session_kv6_t)
    (value : Nat) : Int × (session_kv6_t → Option Nat) :=
  (0, fun k => if k = kv then some value else m k)

/-- Modelled from the spec: the v6 bihash delete operation. -/
def clib_bihash_del6 (m : session_kv6_t → Option Nat) (kv : session_kv6_t) :
    Int × (session_kv6_t → Option Nat) :=
  match m kv with
  | some _ => (0, fun k => if k = kv then none else m k)
  | none => (-3, m)

/-- Replace the table at a pool index (pointer mutation through a pool
element in C). -/
def set_table (s : session_lookup_state) (table_index : Nat)
    (st : session_table_t) : session_lookup_state :=
  { s with lookup_tables := s.lookup_tables.set table_index st }

/-- Modelled from the spec: the external session, listener and application
pools at their interface boundary (session.c / application.c, not under
src/). `session_connection_index i t` is `session_get(i, t)->connection_index`;
`listen_connection_index i` is `listen_session_get(i)->connection_index`;
`app_listen_session a fp tp` resolves an application index to the
connection index of its first listener for the family/protocol pair
(`resolve_listener_session`), none when the app is invalid or has no such
listener; `is_local_host4`/`is_local_host6` are ip4_is_local_host /
ip6_is_local_host (loopback / local-host address test). -/
structure session_env where
  session_connection_index : Nat → Nat → Nat
  listen_connection_index : Nat → Nat
  app_listen_session : Nat → Nat → Nat → Option Nat
  is_local_host4 : Nat → Bool
  is_local_host6 : ip6_address_t → Bool

/-- A transport connection pointer as returned by the lookup functions,
tagged by the accessor that produced it: `connection` for
transport_get_connection (established), `half_open` for
transport_get_half_open, `listener` for transport_get_listener. -/
inductive transport_connection_ref where
  | connection (proto connection_index thread_index : Nat)
  | half_open (proto half_open_index : Nat)
  | listener (proto connection_index : Nat)
deriving DecidableEq, Repr

/-- session_lookup_action_index_is_valid: ALLOW and INVALID are the only
invalid action indices. -/
def session_lookup_action_index_is_valid (action_index : Nat) : Bool :=
  if action_index = SESSION_RULES_TABLE_ACTION_ALLOW then false
  else if action_index = SESSION_RULES_TABLE_INVALID_INDEX then false
  else true

/-- session_lookup_action_to_handle: DROP maps to SESSION_DROP_HANDLE,
ALLOW and INVALID to SESSION_INVALID_HANDLE, anything else is an
application index returned unchanged. -/
def session_lookup_action_to_handle (action_index : Nat) : Nat :=
  if action_index = SESSION_RULES_TABLE_ACTION_DROP then SESSION_DROP_HANDLE
  else if action_index = SESSION_RULES_TABLE_ACTION_ALLOW then
    SESSION_INVALID_HANDLE
  else if action_index = SESSION_RULES_TABLE_INVALID_INDEX then
    SESSION_INVALID_HANDLE
  else action_index

/-- session_lookup_action_to_session: resolve the action to the
application's first listener session; the C code stores the 64-bit handle
in a u32 `app_index` variable, hence the truncation. The result is the
connection index of the listener session, none when no session resolves. -/
def session_lookup_action_to_session (env : session_env)
    (action_index fib_proto transport_proto : Nat) : Option Nat :=
  env.app_listen_session (u32_of (session_lookup_action_to_handle action_index))
    fib_proto transport_proto

/-- session_lookup_listener4_i: probe the exact listener key, then (only
with use_wildcard) the same key with `key[0]` zeroed, then the proxy key;
first hit wins, the stored value truncated to a u32 listen-session index. -/
def session_lookup_listener4_i (st : session_table_t)
    (lcl lcl_port proto : Nat) (use_wildcard : Bool) : Option Nat :=
  match st.v4_session_hash (make_v4_listener_kv lcl lcl_port proto) with
  | some value => some (u32_of value)
  | none =>
    let wild :=
      if use_wildcard then
        st.v4_session_hash { make_v4_listener_kv lcl lcl_port proto with
                             key0 := 0 }
      else none
    match wild with
    | some value => some (u32_of value)
    | none =>
      match st.v4_session_hash (make_v4_proxy_kv lcl proto) with
      | some value => some (u32_of value)
      | none => none

/-- session_lookup_listener6_i: the v6 counterpart of
session_lookup_listener4_i. -/
def session_lookup_listener6_i (st : session_table_t) (lcl : ip6_address_t)
    (lcl_port proto : Nat) (ip_wildcard : Bool) : Option Nat :=
  match st.v6_session_hash (make_v6_listener_kv lcl lcl_port proto) with
  | some value => some (u32_of value)
  | none =>
    let wild :=
      if ip_wildcard then
        st.v6_session_hash { make_v6_listener_kv lcl lcl_port proto with
                             key0 := 0, key1 := 0 }
      else none
    match wild with
    | some value => some (u32_of value)
    | none =>
      match st.v6_session_hash (make_v6_proxy_kv lcl proto) with
      | some value => some (u32_of value)
      | none => none

/-- The listener fallthrough step of the IPv4 fast-path lookups (the tail
of session_lookup_connection_wt4 / session_lookup_connection4 reached when
the maps miss and no valid rule fires). -/
def wt4_listener_step (env : session_env) (st : session_table_t)
    (lcl lcl_port proto : Nat) : Option transport_connection_ref :=
  match session_lookup_listener4_i st lcl lcl_port proto true with
  | some li => some (.listener proto (env.listen_connection_index li))
  | none => none

/-- The listener fallthrough step of the IPv6 fast-path lookups. -/
def wt6_listener_step (env : session_env) (st : session_table_t)
    (lcl : ip6_address_t) (lcl_port proto : Nat) :
    Option transport_connection_ref :=
  match session_lookup_listener6_i st lcl lcl_port proto true with
  | some li => some (.listener proto (env.listen_connection_index li))
  | none => none

/-- session_lookup_connection_wt4: the thread-checked fast-path IPv4
lookup. `result` is the value behind the `u8 *result` out-parameter on
entry; the returned pair is (returned connection, out-parameter on exit). -/
def session_lookup_connection_wt4 (env : session_env)
    (s : session_lookup_state)
    (fib_index lcl rmt lcl_port rmt_port proto thread_index result : Nat) :
    Option transport_connection_ref × Nat :=
  match session_table_get_for_fib_index s FIB_PROTOCOL_IP4 fib_index with
  | none => (none, result)
  | some st =>
    match st.v4_session_hash (make_v4_ss_kv lcl rmt lcl_port rmt_port proto) with
    | some value =>
      if u32_of (value / pow32) ≠ thread_index then
        (none, SESSION_LOOKUP_RESULT_WRONG_THREAD)
      else
        (some (.connection proto
                 (env.session_connection_index (u32_of value) thread_index)
                 thread_index),
         result)
    | none =>
      match st.v4_half_open_hash
              (make_v4_ss_kv lcl rmt lcl_port rmt_port proto) with
      | some value => (some (.half_open proto (u32_of value)), result)
      | none =>
        match st.srtg_handle with
        | some rt =>
          if session_lookup_action_index_is_valid
              (rt.lookup4 proto lcl rmt lcl_port rmt_port) then
            if rt.lookup4 proto lcl rmt lcl_port rmt_port =
                SESSION_RULES_TABLE_ACTION_DROP then
              (none, SESSION_LOOKUP_RESULT_FILTERED)
            else
              match session_lookup_action_to_session env
                      (rt.lookup4 proto lcl rmt lcl_port rmt_port)
                      FIB_PROTOCOL_IP4 proto with
              | some ci => (some (.listener proto ci), result)
              | none => (none, result)
          else (wt4_listener_step env st lcl lcl_port proto, result)
        | none => (wt4_listener_step env st lcl lcl_port proto, result)

/-- session_lookup_connection4: the non-thread-checked IPv4 lookup. On an
established hit it parses the handle itself (session_get_from_handle):
thread is the handle's high u32, session index its low u32. -/
def session_lookup_connection4 (env : session_env)
    (s : session_lookup_state)
    (fib_index lcl rmt lcl_port rmt_port proto : Nat) :
    Option transport_connection_ref :=
  match session_table_get_for_fib_index s FIB_PROTOCOL_IP4 fib_index with
  | none => none
  | some st =>
    match st.v4_session_hash (make_v4_ss_kv lcl rmt lcl_port rmt_port proto) with
    | some value =>
      some (.connection proto
              (env.session_connection_index (u32_of value)
                (u32_of (value / pow32)))
              (u32_of (value / pow32)))
    | none =>
      match st.v4_half_open_hash
              (make_v4_ss_kv lcl rmt lcl_port rmt_port proto) with
      | some value => some (.half_open proto (u32_of value))
      | none =>
        match st.srtg_handle with
        | some rt =>
          if session_lookup_action_index_is_valid
              (rt.lookup4 proto lcl rmt lcl_port rmt_port) then
            if rt.lookup4 proto lcl rmt lcl_port rmt_port =
                SESSION_RULES_TABLE_ACTION_DROP then none
            else
              match session_lookup_action_to_session env
                      (rt.lookup4 proto lcl rmt lcl_port rmt_port)
                      FIB_PROTOCOL_IP4 proto with
              | some ci => some (.listener proto ci)
              | none => none
          else wt4_listener_step env st lcl lcl_port proto
        | none => wt4_listener_step env st lcl lcl_port proto

/-- session_lookup_connection_wt6: the thread-checked fast-path IPv6
lookup. -/
def session_lookup_connection_wt6 (env : session_env)
    (s : session_lookup_state) (fib_index : Nat) (lcl rmt : ip6_address_t)
    (lcl_port rmt_port proto thread_index result : Nat) :
    Option transport_connection_ref × Nat :=
  match session_table_get_for_fib_index s FIB_PROTOCOL_IP6 fib_index with
  | none => (none, result)
  | some st =>
    match st.v6_session_hash (make_v6_ss_kv lcl rmt lcl_port rmt_port proto) with
    | some value =>
      if u32_of (value / pow32) ≠ thread_index then
        (none, SESSION_LOOKUP_RESULT_WRONG_THREAD)
      else
        (some (.connection proto
                 (env.session_connection_index (u32_of value) thread_index)
                 thread_index),
         result)
    | none =>
      match st.v6_half_open_hash
              (make_v6_ss_kv lcl rmt lcl_port rmt_port proto) with
      | some value => (some (.half_open proto (u32_of value)), result)
      | none =>
        match st.srtg_handle with
        | some rt =>
          if session_lookup_action_index_is_valid
              (rt.lookup6 proto lcl rmt lcl_port rmt_port) then
            if rt.lookup6 proto lcl rmt lcl_port rmt_port =
                SESSION_RULES_TABLE_ACTION_DROP then
              (none, SESSION_LOOKUP_RESULT_FILTERED)
            else
              match session_lookup_action_to_session env
                      (rt.lookup6 proto lcl rmt lcl_port rmt_port)
                      FIB_PROTOCOL_IP6 proto with
              | some ci => (some (.listener proto ci), result)
              | none => (none, result)
          else (wt6_listener_step env st lcl lcl_port proto, result)
        | none => (wt6_listener_step env st lcl lcl_port proto, result)

/-- session_lookup_connection6: the non-thread-checked IPv6 lookup. -/
def session_lookup_connection6 (env : session_env)
    (s : session_lookup_state) (fib_index : Nat) (lcl rmt : ip6_address_t)
    (lcl_port rmt_port proto : Nat) : Option transport_connection_ref :=
  match session_table_get_for_fib_index s FIB_PROTOCOL_IP6 fib_index with
  | none => none
  | some st =>
    match st.v6_session_hash (make_v6_ss_kv lcl rmt lcl_port rmt_port proto) with
    | some value =>
      some (.connection proto
              (env.session_connection_index (u32_of value)
                (u32_of (value / pow32)))
              (u32_of (value / pow32)))
    | none =>
      match st.v6_half_open_hash
              (make_v6_ss_kv lcl rmt lcl_port rmt_port proto) with
      | some value => some (.half_open proto (u32_of value))
      | none =>
        match st.srtg_handle with
        | some rt =>
          if session_lookup_action_index_is_valid
              (rt.lookup6 proto lcl rmt lcl_port rmt_port) then
            if rt.lookup6 proto lcl rmt lcl_port rmt_port =
                SESSION_RULES_TABLE_ACTION_DROP then none
            else
              match session_lookup_action_to_session env
                      (rt.lookup6 proto lcl rmt lcl_port rmt_port)
                      FIB_PROTOCOL_IP6 proto with
              | some ci => some (.listener proto ci)
              | none => none
          else wt6_listener_step env st lcl lcl_port proto
        | none => wt6_listener_step env st lcl lcl_port proto

/-- The listener-probe tail of session_lookup_local_endpoint for IPv4:
exact listener key; address-zeroed key only for a local-host address; the
key with `key[1]` zeroed as well; invalid handle when everything misses. -/
def session_lookup_local_endpoint_probe4 (env : session_env)
    (st : session_table_t) (sep : session_endpoint_t) : Nat :=
  match st.v4_session_hash
          (make_v4_listener_kv sep.ip4 sep.port sep.transport_proto) with
  | some value => value
  | none =>
    match (if env.is_local_host4 sep.ip4 then
            st.v4_session_hash
              { make_v4_listener_kv sep.ip4 sep.port sep.transport_proto with
                key0 := 0 }
           else none) with
    | some value => value
    | none =>
      match st.v4_session_hash { key0 := 0, key1 := 0 } with
      | some value => value
      | none => SESSION_INVALID_HANDLE

/-- The listener-probe tail of session_lookup_local_endpoint for IPv6. -/
def session_lookup_local_endpoint_probe6 (env : session_env)
    (st : session_table_t) (sep : session_endpoint_t) : Nat :=
  match st.v6_session_hash
          (make_v6_listener_kv sep.ip6 sep.port sep.transport_proto) with
  | some value => value
  | none =>
    match (if env.is_local_host6 sep.ip6 then
            st.v6_session_hash
              { make_v6_listener_kv sep.ip6 sep.port sep.transport_proto with
                key0 := 0, key1 := 0 }
           else none) with
    | some value => value
    | none =>
      match st.v6_session_hash
              { key0 := 0, key1 := 0, key2 := 0, key3 := 0,
                key4 := 0, key5 := 0 } with
      | some value => value
      | none => SESSION_INVALID_HANDLE

/-- session_lookup_local_endpoint: the local/loopback endpoint lookup.
Rules first (queried with a zeroed local address and zero local port, the
endpoint as remote), returning immediately on a valid action; then the
listener-probe tail. -/
def session_lookup_local_endpoint (env : session_env)
    (s : session_lookup_state) (table_index : Nat)
    (sep : session_endpoint_t) : Nat :=
  match session_table_get s table_index with
  | none => SESSION_INVALID_HANDLE
  | some st =>
    if sep.is_ip4 then
      match st.srtg_handle with
      | some rt =>
        if session_lookup_action_index_is_valid
            (rt.lookup4 sep.transport_proto 0 sep.ip4 0 sep.port) then
          session_lookup_action_to_handle
            (rt.lookup4 sep.transport_proto 0 sep.ip4 0 sep.port)
        else session_lookup_local_endpoint_probe4 env st sep
      | none => session_lookup_local_endpoint_probe4 env st sep
    else
      match st.srtg_handle with
      | some rt =>
        if session_lookup_action_index_is_valid
            (rt.lookup6 sep.transport_proto ⟨0, 0⟩ sep.ip6 0 sep.port) then
          session_lookup_action_to_handle
            (rt.lookup6 sep.transport_proto ⟨0, 0⟩ sep.ip6 0 sep.port)
        else session_lookup_local_endpoint_probe6 env st sep
      | none => session_lookup_local_endpoint_probe6 env st sep

/-- session_lookup_add_half_open: table resolution is get-or-alloc, then
the connection key is added to the half-open map. The
`if (!st) return 0` guard of the C code is the none branch. -/
def session_lookup_add_half_open (s : session_lookup_state)
    (tc : transport_connection_t) (value : Nat) :
    Int × session_lookup_state :=
  let alloc := session_table_get_or_alloc_for_connection s tc
  match session_table_get alloc.2 alloc.1 with
  | none => (0, alloc.2)
  | some st =>
    if tc.is_ip4 then
      let add := clib_bihash_add st.v4_half_open_hash
        (make_v4_ss_kv_from_tc tc) value
      (add.1, set_table alloc.2 alloc.1 { st with v4_half_open_hash := add.2 })
    else
      let add := clib_bihash_add6 st.v6_half_open_hash
        (make_v6_ss_kv_from_tc tc) value
      (add.1, set_table alloc.2 alloc.1 { st with v6_half_open_hash := add.2 })

/-- session_lookup_del_half_open: table resolution is non-creating
(session_table_get_for_connection); absent table returns -1 untouched. -/
def session_lookup_del_half_open (s : session_lookup_state)
    (tc : transport_connection_t) : Int × session_lookup_state :=
  match s.fib_index_to_table_index (transport_connection_fib_proto tc)
          tc.fib_index with
  | none => (-1, s)
  | some table_index =>
    match session_table_get s table_index with
    | none => (-1, s)
    | some st =>
      if tc.is_ip4 then
        let del := clib_bihash_del st.v4_half_open_hash
          (make_v4_ss_kv_from_tc tc)
        (del.1, set_table s table_index { st with v4_half_open_hash := del.2 })
      else
        let del := clib_bihash_del6 st.v6_half_open_hash
          (make_v6_ss_kv_from_tc tc)
        (del.1, set_table s table_index { st with v6_half_open_hash := del.2 })

/-- session_lookup_half_open_handle: query the half-open map; invalid
value when the table or the entry is absent. -/
def session_lookup_half_open_handle (s : session_lookup_state)
    (tc : transport_connection_t) : Nat :=
  match session_table_get_for_fib_index s (transport_connection_fib_proto tc)
          tc.fib_index with
  | none => HALF_OPEN_LOOKUP_INVALID_VALUE
  | some st =>
    if tc.is_ip4 then
      match st.v4_half_open_hash
              (make_v4_ss_kv tc.lcl_ip4 tc.rmt_ip4 tc.lcl_port tc.rmt_port
                tc.proto) with
      | some value => value
      | none => HALF_OPEN_LOOKUP_INVALID_VALUE
    else
      match st.v6_half_open_hash
              (make_v6_ss_kv tc.lcl_ip6 tc.rmt_ip6 tc.lcl_port tc.rmt_port
                tc.proto) with
      | some value => value
      | none => HALF_OPEN_LOOKUP_INVALID_VALUE

/-- session_lookup_del_connection: remove the connection key from the
established map; non-creating table resolution, -1 on absent table. -/
def session_lookup_del_connection (s : session_lookup_state)
    (tc : transport_connection_t) : Int × session_lookup_state :=
  match s.fib_index_to_table_index (transport_connection_fib_proto tc)
          tc.fib_index with
  | none => (-1, s)
  | some table_index =>
    match session_table_get s table_index with
    | none => (-1, s)
    | some st =>
      if tc.is_ip4 then
        let del := clib_bihash_del st.v4_session_hash
          (make_v4_ss_kv_from_tc tc)
        (del.1, set_table s table_index { st with v4_session_hash := del.2 })
      else
        let del := clib_bihash_del6 st.v6_session_hash
          (make_v6_ss_kv_from_tc tc)
        (del.1, set_table s table_index { st with v6_session_hash := del.2 })

/-- session_lookup_del_session_endpoint: remove the listener key from the
established map of the table at table_index; -1 when the table is absent. -/
def session_lookup_del_session_endpoint (s : session_lookup_state)
    (table_index : Nat) (sep : session_endpoint_t) :
    Int × session_lookup_state :=
  match session_table_get s table_index with
  | none => (-1, s)
  | some st =>
    if sep.is_ip4 then
      let del := clib_bihash_del st.v4_session_hash
        (make_v4_listener_kv sep.ip4 sep.port sep.transport_proto)
      (del.1, set_table s table_index { st with v4_session_hash := del.2 })
    else
      let del := clib_bihash_del6 st.v6_session_hash
        (make_v6_listener_kv sep.ip6 sep.port sep.transport_proto)
      (del.1, set_table s table_index { st with v6_session_hash := del.2 })

/-!
Specification-side definitions, written from the spec's words, to be
compared with the functions translated from the source.
-/

/-- The ordered IPv4 probe list of the spec's `find_listener`: exact
listener key; if allow_wildcard, the address-zeroed listener key; finally
the proxy key. -/
def find_listener_probes4 (lcl lcl_port proto : Nat)
    (allow_wildcard : Bool) : List session_kv4_t :=
  [make_v4_listener_kv lcl lcl_port proto] ++
  (if allow_wildcard then [make_v4_listener_kv 0 lcl_port proto] else []) ++
  [make_v4_proxy_kv lcl proto]

/-- The spec's `find_listener` for IPv4: the first hit along the probe
list, its stored value read back as a u32 listen-session index. -/
def find_listener4 (st : session_table_t) (lcl lcl_port proto : Nat)
    (allow_wildcard : Bool) : Option Nat :=
  (((find_listener_probes4 lcl lcl_port proto allow_wildcard).filterMap
      st.v4_session_hash).head?).map u32_of

/-- The ordered IPv6 probe list of the spec's `find_listener`. -/
def find_listener_probes6 (lcl : ip6_address_t) (lcl_port proto : Nat)
    (allow_wildcard : Bool) : List session_kv6_t :=
  [make_v6_listener_kv lcl lcl_port proto] ++
  (if allow_wildcard then [make_v6_listener_kv ⟨0, 0⟩ lcl_port proto]
   else []) ++
  [make_v6_proxy_kv lcl proto]

/-- The spec's `find_listener` for IPv6. -/
def find_listener6 (st : session_table_t) (lcl : ip6_address_t)
    (lcl_port proto : Nat) (allow_wildcard : Bool) : Option Nat :=
  (((find_listener_probes6 lcl lcl_port proto allow_wildcard).filterMap
      st.v6_session_hash).head?).map u32_of

/-- The ordered IPv4 probe list of the local-endpoint lookup, as the
amended claim words it: exact listener key; the address-zeroed key only
for a local-host address; finally the all-zero key. The code's final
probe (`kv4.key[1] = 0`) zeroes the protocol discriminant along with both
ports, so this last element is the all-zero key and NOT the spec's fully
wildcarded proxy key `make_v4_proxy_kv 0 proto`, which would retain
`proto << 32`; the counterexample to claim C6 exhibits the difference. -/
def local_endpoint_probes4 (env : session_env) (sep : session_endpoint_t) :
    List session_kv4_t :=
  [make_v4_listener_kv sep.ip4 sep.port sep.transport_proto] ++
  (if env.is_local_host4 sep.ip4 then
    [make_v4_listener_kv 0 sep.port sep.transport_proto]
   else []) ++
  [{ key0 := 0, key1 := 0 }]

/-- The ordered IPv6 probe list of the local-endpoint lookup, as the
amended claim words it; as in the IPv4 case the final element is the
all-zero key (`kv6.key[4] = kv6.key[5] = 0` wipes the protocol
discriminant), not the proxy key for the endpoint's protocol. -/
def local_endpoint_probes6 (env : session_env) (sep : session_endpoint_t) :
    List session_kv6_t :=
  [make_v6_listener_kv sep.ip6 sep.port sep.transport_proto] ++
  (if env.is_local_host6 sep.ip6 then
    [make_v6_listener_kv ⟨0, 0⟩ sep.port sep.transport_proto]
   else []) ++
  [{ key0 := 0, key1 := 0, key2 := 0, key3 := 0, key4 := 0, key5 := 0 }]

/-- The local-endpoint lookup as the amended claim words it: rules first
when attached, returning immediately on a valid (drop or redirect)
action; otherwise the first hit along the probe list (whose final element
is the all-zero key, see local_endpoint_probes4); the invalid handle when
everything misses. -/
def session_lookup_local_endpoint_spec (env : session_env)
    (s : session_lookup_state) (table_index : Nat)
    (sep : session_endpoint_t) : Nat :=
  match session_table_get s table_index with
  | none => SESSION_INVALID_HANDLE
  | some st =>
    let rules_step : Option Nat :=
      match st.srtg_handle with
      | some rt =>
        let ai :=
          if sep.is_ip4 then
            rt.lookup4 sep.transport_proto 0 sep.ip4 0 sep.port
          else rt.lookup6 sep.transport_proto ⟨0, 0⟩ sep.ip6 0 sep.port
        if session_lookup_action_index_is_valid ai then
          some (session_lookup_action_to_handle ai)
        else none
      | none => none
    match rules_step with
    | some handle => handle
    | none =>
      if sep.is_ip4 then
        (((local_endpoint_probes4 env sep).filterMap
            st.v4_session_hash).head?).getD SESSION_INVALID_HANDLE
      else
        (((local_endpoint_probes6 env sep).filterMap
            st.v6_session_hash).head?).getD SESSION_INVALID_HANDLE


/-!
Concrete example data used by the closed witnesses and counterexamples.
-/

/-- Example rules table: drop exactly the tuple (lcl=9, rmt=10, 12, 22)
over TCP (proto 6), no rule anywhere else. -/
def rt0 : session_rules_table_t :=
  { lookup4 := fun proto lcl rmt lcl_port rmt_port =>
      if proto = 6 ∧ lcl = 9 ∧ rmt = 10 ∧ lcl_port = 12 ∧ rmt_port = 22 then
        SESSION_RULES_TABLE_ACTION_DROP
      else SESSION_RULES_TABLE_INVALID_INDEX
    lookup6 := fun proto lcl rmt lcl_port rmt_port =>
      if proto = 6 ∧ lcl = ⟨9, 9⟩ ∧ rmt = ⟨10, 10⟩ ∧ lcl_port = 12 ∧
          rmt_port = 22 then
        SESSION_RULES_TABLE_ACTION_DROP
      else SESSION_RULES_TABLE_INVALID_INDEX }

/-- Example session table: one established v4/v6 entry with handle
thread=1, session=5; one half-open v4/v6 entry with value 8; a listener
bound at (lcl=9, port=12) so the drop rule of rt0 shadows it; rt0
attached. -/
def st0 : session_table_t :=
  { v4_session_hash := fun k =>
      if k = make_v4_ss_kv 1 2 10 20 6 then some (pow32 + 5)
      else if k = make_v4_listener_kv 9 12 6 then some 3
      else none
    v6_session_hash := fun k =>
      if k = make_v6_ss_kv ⟨1, 1⟩ ⟨2, 2⟩ 10 20 6 then some (pow32 + 5)
      else if k = make_v6_listener_kv ⟨9, 9⟩ 12 6 then some 3
      else none
    v4_half_open_hash := fun k =>
      if k = make_v4_ss_kv 3 4 11 21 6 then some 8 else none
    v6_half_open_hash := fun k =>
      if k = make_v6_ss_kv ⟨3, 3⟩ ⟨4, 4⟩ 11 21 6 then some 8 else none
    srtg_handle := some rt0
    active_fib_proto := FIB_PROTOCOL_IP4 }

/-- Example environment for the external pools. -/
def env0 : session_env :=
  { session_connection_index := fun i t => 100 * t + i
    listen_connection_index := fun i => i + 7
    app_listen_session := fun a fp tp =>
      if a = 42 ∧ fp = FIB_PROTOCOL_IP4 ∧ tp = 6 then some 99 else none
    is_local_host4 := fun a => a = 2130706433
    is_local_host6 := fun a => a = ⟨0, 1⟩ }

/-- Example lookup state: st0 serves fib index 0 for both families. -/
def s1 : session_lookup_state :=
  { lookup_tables := [st0]
    fib_index_to_table_index := fun _ i => if i = 0 then some 0 else none }

/-- Empty lookup state: no table pool entries, no registry entries. -/
def s_empty : session_lookup_state :=
  { lookup_tables := []
    fib_index_to_table_index := fun _ _ => none }

/-- Example v4 transport connection in fib 0. -/
def tc0 : transport_connection_t :=
  { is_ip4 := true
    lcl_ip4 := 3
    rmt_ip4 := 4
    lcl_ip6 := ⟨3, 3⟩
    rmt_ip6 := ⟨4, 4⟩
    lcl_port := 11
    rmt_port := 21
    proto := 6
    fib_index := 0 }

/-- Example table holding only a listener bound at (0.0.0.0, port 80,
TCP) with value 11. -/
def st_wild : session_table_t :=
  { v4_session_hash := fun k =>
      if k = make_v4_listener_kv 0 80 6 then some 11 else none
    v6_session_hash := fun _ => none
    v4_half_open_hash := fun _ => none
    v6_half_open_hash := fun _ => none
    srtg_handle := none
    active_fib_proto := FIB_PROTOCOL_IP4 }

/-- Example table holding only a proxy entry bound at (10.1.1.1, TCP)
(address 16843018 as a little-endian u32) with value 13. -/
def st_proxy : session_table_t :=
  { v4_session_hash := fun k =>
      if k = make_v4_proxy_kv 16843018 6 then some 13 else none
    v6_session_hash := fun _ => none
    v4_half_open_hash := fun _ => none
    v6_half_open_hash := fun _ => none
    srtg_handle := none
    active_fib_proto := FIB_PROTOCOL_IP4 }

/-- Example table holding only the fully wildcarded TCP proxy entry: the
proxy key for the all-zeros address and protocol 6, with value 21. -/
def st_zp : session_table_t :=
  { v4_session_hash := fun k =>
      if k = make_v4_proxy_kv 0 6 then some 21 else none
    v6_session_hash := fun _ => none
    v4_half_open_hash := fun _ => none
    v6_half_open_hash := fun _ => none
    srtg_handle := none
    active_fib_proto := FIB_PROTOCOL_IP4 }

/-- Lookup state exposing st_zp as the local table at table index 0. -/
def s_zp : session_lookup_state :=
  { lookup_tables := [st_zp]
    fib_index_to_table_index := fun _ i => if i = 0 then some 0 else none }

/-- Example v4 endpoint (5:443, TCP) whose address is not a local-host
address under env0. -/
def sep0 : session_endpoint_t :=
  { is_ip4 := true
    ip4 := 5
    ip6 := ⟨5, 5⟩
    port := 443
    transport_proto := 6
    fib_index := 0 }


/-!
Claims.
-/

/-- Claim C2, counterexample: zeroing the local address and both ports of
the listener key for (lcl=1, lcl_port=5, proto=6) does not yield the
encoded proxy key for (lcl=1, proto=6), because the proxy key keeps the
local address in `key[0]`. -/
theorem claim_C2_counterexample :
    ¬ zero_local_addr_v4 (zero_ports_v4 (make_v4_listener_kv 1 5 6)) =
        make_v4_proxy_kv 1 6 := by decide

/-- Claim C2, amended: for both address families, zeroing exactly the
remote fields of the connection key yields the listener key for
(lcl, lcl_port, proto); zeroing both ports of that listener key, keeping
the local address, yields the proxy key for (lcl, proto); zeroing the
local address as well yields the proxy key for the all-zeros address. -/
theorem claim_C2_amended
    (lcl rmt lcl_port rmt_port proto : Nat) (lcl6 rmt6 : ip6_address_t)
    (hl : lcl < pow32) (hlp : lcl_port < pow16) (hrp : rmt_port < pow16) :
    zero_remote_v4 (make_v4_ss_kv lcl rmt lcl_port rmt_port proto) =
        make_v4_listener_kv lcl lcl_port proto ∧
    zero_ports_v4 (make_v4_listener_kv lcl lcl_port proto) =
        make_v4_proxy_kv lcl proto ∧
    zero_local_addr_v4 (zero_ports_v4 (make_v4_listener_kv lcl lcl_port proto)) =
        make_v4_proxy_kv 0 proto ∧
    zero_remote_v6 (make_v6_ss_kv lcl6 rmt6 lcl_port rmt_port proto) =
        make_v6_listener_kv lcl6 lcl_port proto ∧
    zero_ports_v6 (make_v6_listener_kv lcl6 lcl_port proto) =
        make_v6_proxy_kv lcl6 proto ∧
    zero_local_addr_v6 (zero_ports_v6 (make_v6_listener_kv lcl6 lcl_port proto)) =
        make_v6_proxy_kv ⟨0, 0⟩ proto := by
  refine ⟨?_, ?_, ?_, ?_, ?_, ?_⟩ <;>
    simp only [zero_remote_v4, zero_ports_v4, zero_local_addr_v4,
      zero_remote_v6, zero_ports_v6, zero_local_addr_v6, make_v4_ss_kv,
      make_v4_listener_kv, make_v4_proxy_kv, make_v6_ss_kv,
      make_v6_listener_kv, make_v6_proxy_kv, session_kv4_t.mk.injEq,
      session_kv6_t.mk.injEq, pow16, pow32] <;>
    simp only [pow16, pow32] at hl hlp hrp <;>
    norm_num <;> omega

/-- Claim C2 amended, witness at lcl=1, lcl_port=5, rmt_port=7. -/
theorem claim_C2_witness :
    zero_remote_v4 (make_v4_ss_kv 1 2 5 7 6) = make_v4_listener_kv 1 5 6 :=
  (claim_C2_amended 1 2 5 7 6 ⟨3, 4⟩ ⟨8, 9⟩ (by decide) (by decide)
    (by decide)).1

/-- Claim C1: on an established-map hit in session_lookup_connection_wt4
or session_lookup_connection_wt6, if the thread identifier packed in the
high 32 bits of the stored handle differs from the calling thread the
out-parameter becomes WRONG_THREAD and no connection is returned; if it
equals the calling thread the corresponding transport connection is
returned, the out-parameter untouched. -/
theorem claim_C1 (env : session_env) (s : session_lookup_state)
    (fib_index lcl rmt lcl_port rmt_port proto thread_index result value :
      Nat)
    (lcl6 rmt6 : ip6_address_t) (st : session_table_t) :
    (session_table_get_for_fib_index s FIB_PROTOCOL_IP4 fib_index =
        some st →
      st.v4_session_hash (make_v4_ss_kv lcl rmt lcl_port rmt_port proto) =
        some value →
      ((u32_of (value / pow32) ≠ thread_index →
        session_lookup_connection_wt4 env s fib_index lcl rmt lcl_port
            rmt_port proto thread_index result =
          (none, SESSION_LOOKUP_RESULT_WRONG_THREAD)) ∧
       (u32_of (value / pow32) = thread_index →
        session_lookup_connection_wt4 env s fib_index lcl rmt lcl_port
            rmt_port proto thread_index result =
          (some (.connection proto
             (env.session_connection_index (u32_of value) thread_index)
             thread_index), result)))) ∧
    (session_table_get_for_fib_index s FIB_PROTOCOL_IP6 fib_index =
        some st →
      st.v6_session_hash (make_v6_ss_kv lcl6 rmt6 lcl_port rmt_port proto) =
        some value →
      ((u32_of (value / pow32) ≠ thread_index →
        session_lookup_connection_wt6 env s fib_index lcl6 rmt6 lcl_port
            rmt_port proto thread_index result =
          (none, SESSION_LOOKUP_RESULT_WRONG_THREAD)) ∧
       (u32_of (value / pow32) = thread_index →
        session_lookup_connection_wt6 env s fib_index lcl6 rmt6 lcl_port
            rmt_port proto thread_index result =
          (some (.connection proto
             (env.session_connection_index (u32_of value) thread_index)
             thread_index), result)))) := by
  constructor
  · intro hst hv
    constructor
    · intro hne
      simp only [session_lookup_connection_wt4, hst, hv, if_pos hne]
    · intro heq
      simp only [session_lookup_connection_wt4, hst, hv, heq, ne_eq,
        not_true_eq_false, if_false]
  · intro hst hv
    constructor
    · intro hne
      simp only [session_lookup_connection_wt6, hst, hv, if_pos hne]
    · intro heq
      simp only [session_lookup_connection_wt6, hst, hv, heq, ne_eq,
        not_true_eq_false, if_false]

/-- Claim C1, witness: in s1 the tuple (1,2,10,20,TCP) carries handle
thread=1, session=5; looked up by thread 2 the result is WRONG_THREAD and
no connection; looked up by thread 1 the connection is returned. -/
theorem claim_C1_witness :
    session_lookup_connection_wt4 env0 s1 0 1 2 10 20 6 2 0 =
        (none, SESSION_LOOKUP_RESULT_WRONG_THREAD) ∧
    session_lookup_connection_wt4 env0 s1 0 1 2 10 20 6 1 0 =
        (some (.connection 6
           (env0.session_connection_index (u32_of (pow32 + 5)) 1) 1), 0) :=
  ⟨((claim_C1 env0 s1 0 1 2 10 20 6 2 0 (pow32 + 5) ⟨0, 0⟩ ⟨0, 0⟩ st0).1
      rfl (by decide)).1 (by decide),
   ((claim_C1 env0 s1 0 1 2 10 20 6 1 0 (pow32 + 5) ⟨0, 0⟩ ⟨0, 0⟩ st0).1
      rfl (by decide)).2 (by decide)⟩

/-- Claim C3: when the established map misses and the half-open map hits
the same connection key, the fast-path lookup returns the half-open
connection for every calling thread, the out-parameter untouched. -/
theorem claim_C3 (env : session_env) (s : session_lookup_state)
    (fib_index lcl rmt lcl_port rmt_port proto thread_index result value :
      Nat)
    (lcl6 rmt6 : ip6_address_t) (st : session_table_t) :
    (session_table_get_for_fib_index s FIB_PROTOCOL_IP4 fib_index =
        some st →
      st.v4_session_hash (make_v4_ss_kv lcl rmt lcl_port rmt_port proto) =
        none →
      st.v4_half_open_hash (make_v4_ss_kv lcl rmt lcl_port rmt_port proto) =
        some value →
      session_lookup_connection_wt4 env s fib_index lcl rmt lcl_port
          rmt_port proto thread_index result =
        (some (.half_open proto (u32_of value)), result)) ∧
    (session_table_get_for_fib_index s FIB_PROTOCOL_IP6 fib_index =
        some st →
      st.v6_session_hash (make_v6_ss_kv lcl6 rmt6 lcl_port rmt_port proto) =
        none →
      st.v6_half_open_hash (make_v6_ss_kv lcl6 rmt6 lcl_port rmt_port
          proto) =
        some value →
      session_lookup_connection_wt6 env s fib_index lcl6 rmt6 lcl_port
          rmt_port proto thread_index result =
        (some (.half_open proto (u32_of value)), result)) := by
  constructor
  · intro hst hmiss hhit
    simp only [session_lookup_connection_wt4, hst, hmiss, hhit]
  · intro hst hmiss hhit
    simp only [session_lookup_connection_wt6, hst, hmiss, hhit]

/-- Claim C3, witness: in s1 the tuple (3,4,11,21,TCP) is half-open with
value 8 and not established; lookup returns the half-open connection for
two different calling threads. -/
theorem claim_C3_witness :
    session_lookup_connection_wt4 env0 s1 0 3 4 11 21 6 1 0 =
        (some (.half_open 6 (u32_of 8)), 0) ∧
    session_lookup_connection_wt4 env0 s1 0 3 4 11 21 6 2 0 =
        (some (.half_open 6 (u32_of 8)), 0) :=
  ⟨(claim_C3 env0 s1 0 3 4 11 21 6 1 0 8 ⟨0, 0⟩ ⟨0, 0⟩ st0).1 rfl
      (by decide) (by decide),
   (claim_C3 env0 s1 0 3 4 11 21 6 2 0 8 ⟨0, 0⟩ ⟨0, 0⟩ st0).1 rfl
      (by decide) (by decide)⟩

/-- Claim C4: when both maps miss and the attached rules table returns the
DROP action for the tuple, the fast-path lookup sets FILTERED and returns
no connection, for every table state (in particular with any listener
bound). -/
theorem claim_C4 (env : session_env) (s : session_lookup_state)
    (fib_index lcl rmt lcl_port rmt_port proto thread_index result : Nat)
    (lcl6 rmt6 : ip6_address_t) (st : session_table_t)
    (rt : session_rules_table_t) :
    (session_table_get_for_fib_index s FIB_PROTOCOL_IP4 fib_index =
        some st →
      st.v4_session_hash (make_v4_ss_kv lcl rmt lcl_port rmt_port proto) =
        none →
      st.v4_half_open_hash (make_v4_ss_kv lcl rmt lcl_port rmt_port proto) =
        none →
      st.srtg_handle = some rt →
      rt.lookup4 proto lcl rmt lcl_port rmt_port =
        SESSION_RULES_TABLE_ACTION_DROP →
      session_lookup_connection_wt4 env s fib_index lcl rmt lcl_port
          rmt_port proto thread_index result =
        (none, SESSION_LOOKUP_RESULT_FILTERED)) ∧
    (session_table_get_for_fib_index s FIB_PROTOCOL_IP6 fib_index =
        some st →
      st.v6_session_hash (make_v6_ss_kv lcl6 rmt6 lcl_port rmt_port proto) =
        none →
      st.v6_half_open_hash (make_v6_ss_kv lcl6 rmt6 lcl_port rmt_port
          proto) =
        none →
      st.srtg_handle = some rt →
      rt.lookup6 proto lcl6 rmt6 lcl_port rmt_port =
        SESSION_RULES_TABLE_ACTION_DROP →
      session_lookup_connection_wt6 env s fib_index lcl6 rmt6 lcl_port
          rmt_port proto thread_index result =
        (none, SESSION_LOOKUP_RESULT_FILTERED)) := by
  have hvalid : session_lookup_action_index_is_valid
      SESSION_RULES_TABLE_ACTION_DROP = true := by decide
  constructor
  · intro hst hm1 hm2 hsr hact
    simp only [session_lookup_connection_wt4, hst, hm1, hm2, hsr, hact,
      hvalid, if_true, if_pos rfl]
  · intro hst hm1 hm2 hsr hact
    simp only [session_lookup_connection_wt6, hst, hm1, hm2, hsr, hact,
      hvalid, if_true, if_pos rfl]

/-- Claim C4, witness: in s1 the drop rule of rt0 matches (9,10,12,22,TCP)
while a listener is bound at (9,12,TCP); the lookup returns FILTERED and
no connection. -/
theorem claim_C4_witness :
    session_lookup_connection_wt4 env0 s1 0 9 10 12 22 6 1 0 =
        (none, SESSION_LOOKUP_RESULT_FILTERED) ∧
    st0.v4_session_hash (make_v4_listener_kv 9 12 6) = some 3 :=
  ⟨(claim_C4 env0 s1 0 9 10 12 22 6 1 0 ⟨0, 0⟩ ⟨0, 0⟩ st0 rt0).1 rfl
      (by decide) (by decide) rfl (by decide),
   by decide⟩

/-- Claim C10: in both fast-path lookups the out-parameter is written
only on the WRONG_THREAD and FILTERED paths, on which no connection is
returned; on every other path — table absent, established hit on the
owning thread, half-open hit, rules action other than drop (redirect,
resolved or not), listener hit or total miss — it keeps its entry value,
so NOT_FOUND is signalled only by the null return. The paths enumerated
below partition all inputs. -/
theorem claim_C10 (env : session_env) (s : session_lookup_state)
    (fib_index lcl rmt lcl_port rmt_port proto thread_index result : Nat)
    (lcl6 rmt6 : ip6_address_t) :
    ((session_table_get_for_fib_index s FIB_PROTOCOL_IP4 fib_index =
        none →
      session_lookup_connection_wt4 env s fib_index lcl rmt lcl_port
          rmt_port proto thread_index result = (none, result)) ∧
     (∀ st, session_table_get_for_fib_index s FIB_PROTOCOL_IP4 fib_index =
          some st →
       (∀ value,
         st.v4_session_hash (make_v4_ss_kv lcl rmt lcl_port rmt_port
            proto) = some value →
         (u32_of (value / pow32) = thread_index →
           (session_lookup_connection_wt4 env s fib_index lcl rmt lcl_port
             rmt_port proto thread_index result).2 = result) ∧
         (u32_of (value / pow32) ≠ thread_index →
           session_lookup_connection_wt4 env s fib_index lcl rmt lcl_port
               rmt_port proto thread_index result =
             (none, SESSION_LOOKUP_RESULT_WRONG_THREAD))) ∧
       (st.v4_session_hash (make_v4_ss_kv lcl rmt lcl_port rmt_port
          proto) = none →
         (∀ value,
           st.v4_half_open_hash (make_v4_ss_kv lcl rmt lcl_port rmt_port
              proto) = some value →
           (session_lookup_connection_wt4 env s fib_index lcl rmt lcl_port
             rmt_port proto thread_index result).2 = result) ∧
         (st.v4_half_open_hash (make_v4_ss_kv lcl rmt lcl_port rmt_port
            proto) = none →
           (∀ rt, st.srtg_handle = some rt →
             (rt.lookup4 proto lcl rmt lcl_port rmt_port =
                SESSION_RULES_TABLE_ACTION_DROP →
               session_lookup_connection_wt4 env s fib_index lcl rmt
                   lcl_port rmt_port proto thread_index result =
                 (none, SESSION_LOOKUP_RESULT_FILTERED)) ∧
             (rt.lookup4 proto lcl rmt lcl_port rmt_port ≠
                SESSION_RULES_TABLE_ACTION_DROP →
               (session_lookup_connection_wt4 env s fib_index lcl rmt
                 lcl_port rmt_port proto thread_index result).2 =
                 result)) ∧
           (st.srtg_handle = none →
             (session_lookup_connection_wt4 env s fib_index lcl rmt
               lcl_port rmt_port proto thread_index result).2 =
               result))))) ∧
    ((session_table_get_for_fib_index s FIB_PROTOCOL_IP6 fib_index =
        none →
      session_lookup_connection_wt6 env s fib_index lcl6 rmt6 lcl_port
          rmt_port proto thread_index result = (none, result)) ∧
     (∀ st, session_table_get_for_fib_index s FIB_PROTOCOL_IP6 fib_index =
          some st →
       (∀ value,
         st.v6_session_hash (make_v6_ss_kv lcl6 rmt6 lcl_port rmt_port
            proto) = some value →
         (u32_of (value / pow32) = thread_index →
           (session_lookup_connection_wt6 env s fib_index lcl6 rmt6
             lcl_port rmt_port proto thread_index result).2 = result) ∧
         (u32_of (value / pow32) ≠ thread_index →
           session_lookup_connection_wt6 env s fib_index lcl6 rmt6
               lcl_port rmt_port proto thread_index result =
             (none, SESSION_LOOKUP_RESULT_WRONG_THREAD))) ∧
       (st.v6_session_hash (make_v6_ss_kv lcl6 rmt6 lcl_port rmt_port
          proto) = none →
         (∀ value,
           st.v6_half_open_hash (make_v6_ss_kv lcl6 rmt6 lcl_port rmt_port
              proto) = some value →
           (session_lookup_connection_wt6 env s fib_index lcl6 rmt6
             lcl_port rmt_port proto thread_index result).2 = result) ∧
         (st.v6_half_open_hash (make_v6_ss_kv lcl6 rmt6 lcl_port rmt_port
            proto) = none →
           (∀ rt, st.srtg_handle = some rt →
             (rt.lookup6 proto lcl6 rmt6 lcl_port rmt_port =
                SESSION_RULES_TABLE_ACTION_DROP →
               session_lookup_connection_wt6 env s fib_index lcl6 rmt6
                   lcl_port rmt_port proto thread_index result =
                 (none, SESSION_LOOKUP_RESULT_FILTERED)) ∧
             (rt.lookup6 proto lcl6 rmt6 lcl_port rmt_port ≠
                SESSION_RULES_TABLE_ACTION_DROP →
               (session_lookup_connection_wt6 env s fib_index lcl6 rmt6
                 lcl_port rmt_port proto thread_index result).2 =
                 result)) ∧
           (st.srtg_handle = none →
             (session_lookup_connection_wt6 env s fib_index lcl6 rmt6
               lcl_port rmt_port proto thread_index result).2 =
               result))))) := by
  have hvalid : session_lookup_action_index_is_valid
      SESSION_RULES_TABLE_ACTION_DROP = true := by decide
  constructor
  · constructor
    · intro h
      simp only [session_lookup_connection_wt4, h]
    · intro st hst
      refine ⟨?_, ?_⟩
      · intro value hv
        constructor
        · intro heq
          simp [session_lookup_connection_wt4, hst, hv, heq]
        · intro hne
          simp only [session_lookup_connection_wt4, hst, hv, if_pos hne]
      · intro hm1
        refine ⟨?_, ?_⟩
        · intro value hh
          simp [session_lookup_connection_wt4, hst, hm1, hh]
        · intro hm2
          refine ⟨?_, ?_⟩
          · intro rt hsr
            constructor
            · intro hd
              simp only [session_lookup_connection_wt4, hst, hm1, hm2,
                hsr, hd, hvalid, if_true, if_pos rfl]
            · intro hd
              cases hval : session_lookup_action_index_is_valid
                  (rt.lookup4 proto lcl rmt lcl_port rmt_port)
              · simp [session_lookup_connection_wt4, hst, hm1, hm2, hsr,
                  hval]
              · simp only [session_lookup_connection_wt4, hst, hm1, hm2,
                  hsr, hval, if_true, if_neg hd]
                rcases ha : session_lookup_action_to_session env
                    (rt.lookup4 proto lcl rmt lcl_port rmt_port)
                    FIB_PROTOCOL_IP4 proto with _ | ci <;> simp [ha]
          · intro hsr
            simp [session_lookup_connection_wt4, hst, hm1, hm2, hsr]
  · constructor
    · intro h
      simp only [session_lookup_connection_wt6, h]
    · intro st hst
      refine ⟨?_, ?_⟩
      · intro value hv
        constructor
        · intro heq
          simp [session_lookup_connection_wt6, hst, hv, heq]
        · intro hne
          simp only [session_lookup_connection_wt6, hst, hv, if_pos hne]
      · intro hm1
        refine ⟨?_, ?_⟩
        · intro value hh
          simp [session_lookup_connection_wt6, hst, hm1, hh]
        · intro hm2
          refine ⟨?_, ?_⟩
          · intro rt hsr
            constructor
            · intro hd
              simp only [session_lookup_connection_wt6, hst, hm1, hm2,
                hsr, hd, hvalid, if_true, if_pos rfl]
            · intro hd
              cases hval : session_lookup_action_index_is_valid
                  (rt.lookup6 proto lcl6 rmt6 lcl_port rmt_port)
              · simp [session_lookup_connection_wt6, hst, hm1, hm2, hsr,
                  hval]
              · simp only [session_lookup_connection_wt6, hst, hm1, hm2,
                  hsr, hval, if_true, if_neg hd]
                rcases ha : session_lookup_action_to_session env
                    (rt.lookup6 proto lcl6 rmt6 lcl_port rmt_port)
                    FIB_PROTOCOL_IP6 proto with _ | ci <;> simp [ha]
          · intro hsr
            simp [session_lookup_connection_wt6, hst, hm1, hm2, hsr]

/-- Claim C10, witness: on the table-absent path the lookup returns
null with the out-parameter keeping its entry value 7, and on s1's
half-open hit the out-parameter likewise keeps its entry value. -/
theorem claim_C10_witness :
    session_lookup_connection_wt4 env0 s_empty 0 1 2 10 20 6 1 7 =
      (none, 7) ∧
    (session_lookup_connection_wt4 env0 s1 0 3 4 11 21 6 1 7).2 = 7 :=
  ⟨(claim_C10 env0 s_empty 0 1 2 10 20 6 1 7 ⟨0, 0⟩ ⟨0, 0⟩).1.1 rfl,
   ((((claim_C10 env0 s1 0 3 4 11 21 6 1 7 ⟨0, 0⟩ ⟨0, 0⟩).1.2 st0
       rfl).2 (by decide)).1 8 (by decide))⟩

/-- The masked wildcard probe of the IPv4 listener lookup equals the
encoded listener key for the all-zeros address. -/
theorem listener_kv_zero_addr4 (lcl lcl_port proto : Nat) :
    { make_v4_listener_kv lcl lcl_port proto with key0 := 0 } =
      make_v4_listener_kv 0 lcl_port proto := rfl

/-- The masked wildcard probe of the IPv6 listener lookup equals the
encoded listener key for the all-zeros address. -/
theorem listener_kv_zero_addr6 (lcl : ip6_address_t) (lcl_port proto : Nat) :
    { make_v6_listener_kv lcl lcl_port proto with key0 := 0, key1 := 0 } =
      make_v6_listener_kv ⟨0, 0⟩ lcl_port proto := rfl

/-- Claim C5: the listener-only lookup is the first hit along the ordered
probe list: exact listener key, then (only with allow_wildcard) the
address-zeroed listener key, then the proxy key. In particular, a
listener bound at the all-zeros address with matching port is found at a
nonzero address exactly when allow_wildcard is set, and a lone proxy
entry is found only after both listener probes miss. -/
theorem claim_C5 :
    (∀ (st : session_table_t) (lcl lcl_port proto : Nat) (w : Bool),
      session_lookup_listener4_i st lcl lcl_port proto w =
        find_listener4 st lcl lcl_port proto w) ∧
    (∀ (st : session_table_t) (lcl : ip6_address_t) (lcl_port proto : Nat)
        (w : Bool),
      session_lookup_listener6_i st lcl lcl_port proto w =
        find_listener6 st lcl lcl_port proto w) ∧
    session_lookup_listener4_i st_wild 16843018 80 6 true = some 11 ∧
    session_lookup_listener4_i st_wild 16843018 80 6 false = none ∧
    session_lookup_listener4_i st_proxy 16843018 443 6 true = some 13 := by
  refine ⟨?_, ?_, by decide, by decide, by decide⟩
  · intro st lcl lcl_port proto w
    unfold session_lookup_listener4_i find_listener4 find_listener_probes4
    cases hw : w <;>
      cases h1 : st.v4_session_hash (make_v4_listener_kv lcl lcl_port proto) <;>
      cases h2 : st.v4_session_hash (make_v4_listener_kv 0 lcl_port proto) <;>
      cases h3 : st.v4_session_hash (make_v4_proxy_kv lcl proto) <;>
      simp [listener_kv_zero_addr4, h1, h2, h3]
  · intro st lcl lcl_port proto w
    unfold session_lookup_listener6_i find_listener6 find_listener_probes6
    cases hw : w <;>
      cases h1 : st.v6_session_hash (make_v6_listener_kv lcl lcl_port proto) <;>
      cases h2 : st.v6_session_hash (make_v6_listener_kv ⟨0, 0⟩ lcl_port proto) <;>
      cases h3 : st.v6_session_hash (make_v6_proxy_kv lcl proto) <;>
      simp [listener_kv_zero_addr6, h1, h2, h3]

/-- The IPv4 listener-probe tail of the local-endpoint lookup is the
first hit along the spec's probe list. -/
theorem local_endpoint_probe4_agrees (env : session_env)
    (st : session_table_t) (sep : session_endpoint_t) :
    session_lookup_local_endpoint_probe4 env st sep =
      (((local_endpoint_probes4 env sep).filterMap
          st.v4_session_hash).head?).getD SESSION_INVALID_HANDLE := by
  unfold session_lookup_local_endpoint_probe4 local_endpoint_probes4
  cases hl : env.is_local_host4 sep.ip4 <;>
    cases h1 : st.v4_session_hash
      (make_v4_listener_kv sep.ip4 sep.port sep.transport_proto) <;>
    cases h2 : st.v4_session_hash
      (make_v4_listener_kv 0 sep.port sep.transport_proto) <;>
    cases h3 : st.v4_session_hash { key0 := 0, key1 := 0 } <;>
    simp [listener_kv_zero_addr4, h1, h2, h3, hl]

/-- The IPv6 listener-probe tail of the local-endpoint lookup is the
first hit along the spec's probe list. -/
theorem local_endpoint_probe6_agrees (env : session_env)
    (st : session_table_t) (sep : session_endpoint_t) :
    session_lookup_local_endpoint_probe6 env st sep =
      (((local_endpoint_probes6 env sep).filterMap
          st.v6_session_hash).head?).getD SESSION_INVALID_HANDLE := by
  unfold session_lookup_local_endpoint_probe6 local_endpoint_probes6
  cases hl : env.is_local_host6 sep.ip6 <;>
    cases h1 : st.v6_session_hash
      (make_v6_listener_kv sep.ip6 sep.port sep.transport_proto) <;>
    cases h2 : st.v6_session_hash
      (make_v6_listener_kv ⟨0, 0⟩ sep.port sep.transport_proto) <;>
    cases h3 : st.v6_session_hash
      { key0 := 0, key1 := 0, key2 := 0, key3 := 0, key4 := 0,
        key5 := 0 } <;>
    simp [listener_kv_zero_addr6, h1, h2, h3, hl]

/-- Claim C6, counterexample: the claim's final probe is the fully
wildcarded proxy key, which retains the protocol discriminant
(`make_v4_proxy_kv 0 6` here), but the code's final probe zeroes the
whole second key word, protocol included. In a table whose only entry is
the fully wildcarded TCP proxy key, for an endpoint (5:443, TCP) that
misses the exact probe, is not a local-host address, with no rules
attached, the claimed probe sequence would hit that entry (value 21), yet
the lookup returns the invalid handle. -/
theorem claim_C6_counterexample :
    st_zp.v4_session_hash (make_v4_proxy_kv 0 sep0.transport_proto) =
      some 21 ∧
    st_zp.v4_session_hash
      (make_v4_listener_kv sep0.ip4 sep0.port sep0.transport_proto) =
      none ∧
    env0.is_local_host4 sep0.ip4 = false ∧
    st_zp.srtg_handle = none ∧
    session_lookup_local_endpoint env0 s_zp 0 sep0 =
      SESSION_INVALID_HANDLE :=
  ⟨rfl, rfl, rfl, rfl, rfl⟩

/-- Claim C6, amended: the local-endpoint lookup consults the rules table
first when attached, returning immediately on a valid (drop or redirect)
action before any listener probe; otherwise it returns the first hit
along the probe list: exact listener key, address-zeroed key only for a
local-host address, then the all-zero key — local address and both ports
zero and the protocol discriminant zeroed as well, so the last probe is
the proxy key for protocol 0, not for the endpoint's protocol — and the
invalid handle when everything misses. -/
theorem claim_C6_amended (env : session_env) (s : session_lookup_state)
    (table_index : Nat) (sep : session_endpoint_t) :
    session_lookup_local_endpoint env s table_index sep =
      session_lookup_local_endpoint_spec env s table_index sep := by
  cases hst : session_table_get s table_index with
  | none =>
    simp only [session_lookup_local_endpoint,
      session_lookup_local_endpoint_spec, hst]
  | some st =>
    cases hip : sep.is_ip4 with
    | true =>
      cases hr : st.srtg_handle with
      | none =>
        simp [session_lookup_local_endpoint,
          session_lookup_local_endpoint_spec, hst, hip, hr,
          local_endpoint_probe4_agrees]
      | some rt =>
        cases hv : session_lookup_action_index_is_valid
          (rt.lookup4 sep.transport_proto 0 sep.ip4 0 sep.port) <;>
          simp [session_lookup_local_endpoint,
            session_lookup_local_endpoint_spec, hst, hip, hr, hv,
            local_endpoint_probe4_agrees]
    | false =>
      cases hr : st.srtg_handle with
      | none =>
        simp [session_lookup_local_endpoint,
          session_lookup_local_endpoint_spec, hst, hip, hr,
          local_endpoint_probe6_agrees]
      | some rt =>
        cases hv : session_lookup_action_index_is_valid
          (rt.lookup6 sep.transport_proto ⟨0, 0⟩ sep.ip6 0 sep.port) <;>
          simp [session_lookup_local_endpoint,
            session_lookup_local_endpoint_spec, hst, hip, hr, hv,
            local_endpoint_probe6_agrees]

/-- Claim C8: table allocation is idempotent. When the registry already
maps the pair, get-or-alloc returns that table with the state unchanged
(no allocation); and a second get-or-alloc with the same arguments
returns exactly what the first returned, with no further state change. -/
theorem claim_C8 (s : session_lookup_state) (fib_proto fib_index : Nat) :
    (∀ table_index,
      s.fib_index_to_table_index fib_proto fib_index = some table_index →
      session_table_get_or_alloc s fib_proto fib_index =
        (table_index, s)) ∧
    session_table_get_or_alloc
        (session_table_get_or_alloc s fib_proto fib_index).2 fib_proto
        fib_index =
      session_table_get_or_alloc s fib_proto fib_index := by
  constructor
  · intro table_index h
    simp [session_table_get_or_alloc, h]
  · rcases h : s.fib_index_to_table_index fib_proto fib_index with _ | ti
    · simp [session_table_get_or_alloc, h]
    · simp [session_table_get_or_alloc, h]

/-- Claim C8, witness: in s1 the pair (IP4, fib 0) is mapped to table 0;
get-or-alloc returns it without touching the state. -/
theorem claim_C8_witness :
    session_table_get_or_alloc s1 FIB_PROTOCOL_IP4 0 = (0, s1) :=
  (claim_C8 s1 FIB_PROTOCOL_IP4 0).1 0 rfl

/-- Claim C7, counterexample: with no table allocated for tc0's routing
domain, session_lookup_add_half_open does not return an error and does
mutate: it returns 0 (success; the convention of these functions is
non-zero for failure), allocates the table and stores the entry, which
the subsequent handle query finds. -/
theorem claim_C7_counterexample :
    session_table_get_for_connection s_empty tc0 = none ∧
    (session_lookup_add_half_open s_empty tc0 77).1 = 0 ∧
    session_table_is_alloced (session_lookup_add_half_open s_empty tc0 77).2
      (transport_connection_fib_proto tc0) tc0.fib_index = true ∧
    session_lookup_half_open_handle
      (session_lookup_add_half_open s_empty tc0 77).2 tc0 = 77 :=
  ⟨rfl, rfl, rfl, rfl⟩

/-- Claim C7, amended: the non-creating operations — remove_half_open,
half_open_handle, remove_connection, remove_listener_endpoint — return
failure (respectively the invalid handle) and leave the state unchanged
when the table is absent; add_half_open, however, resolves its table with
get-or-create, so an absent table is allocated and the add succeeds
(returns 0) instead of failing. -/
theorem claim_C7_amended (s : session_lookup_state)
    (tc : transport_connection_t) (sep : session_endpoint_t)
    (table_index value : Nat) :
    (session_table_get_for_connection s tc = none →
      session_lookup_del_half_open s tc = (-1, s)) ∧
    (session_table_get_for_fib_index s (transport_connection_fib_proto tc)
        tc.fib_index = none →
      session_lookup_half_open_handle s tc =
        HALF_OPEN_LOOKUP_INVALID_VALUE) ∧
    (session_table_get_for_connection s tc = none →
      session_lookup_del_connection s tc = (-1, s)) ∧
    (session_table_get s table_index = none →
      session_lookup_del_session_endpoint s table_index sep = (-1, s)) ∧
    (s.fib_index_to_table_index (transport_connection_fib_proto tc)
        tc.fib_index = none →
      (session_lookup_add_half_open s tc value).1 = 0 ∧
      session_table_is_alloced (session_lookup_add_half_open s tc value).2
        (transport_connection_fib_proto tc) tc.fib_index = true ∧
      session_lookup_half_open_handle
        (session_lookup_add_half_open s tc value).2 tc = value) := by
  refine ⟨?_, ?_, ?_, ?_, ?_⟩
  · intro h
    rcases hreg : s.fib_index_to_table_index
        (transport_connection_fib_proto tc) tc.fib_index with _ | ti
    · simp [session_lookup_del_half_open, hreg]
    · have hget : session_table_get s ti = none := by
        simpa [session_table_get_for_connection,
          session_table_get_for_fib_index, hreg] using h
      simp [session_lookup_del_half_open, hreg, hget]
  · intro h
    simp [session_lookup_half_open_handle, h]
  · intro h
    rcases hreg : s.fib_index_to_table_index
        (transport_connection_fib_proto tc) tc.fib_index with _ | ti
    · simp [session_lookup_del_connection, hreg]
    · have hget : session_table_get s ti = none := by
        simpa [session_table_get_for_connection,
          session_table_get_for_fib_index, hreg] using h
      simp [session_lookup_del_connection, hreg, hget]
  · intro h
    simp [session_lookup_del_session_endpoint, h]
  · intro h
    have halloc : session_table_get_or_alloc_for_connection s tc =
        (s.lookup_tables.length,
         { lookup_tables :=
             s.lookup_tables ++
               [session_table_init (transport_connection_fib_proto tc)]
           fib_index_to_table_index := fun p i =>
             if p = transport_connection_fib_proto tc ∧ i = tc.fib_index then
               some s.lookup_tables.length
             else s.fib_index_to_table_index p i }) := by
      simp [session_table_get_or_alloc_for_connection,
        session_table_get_or_alloc, h]
    have hget : session_table_get
        (session_table_get_or_alloc_for_connection s tc).2
        (session_table_get_or_alloc_for_connection s tc).1 =
        some (session_table_init (transport_connection_fib_proto tc)) := by
      rw [halloc]
      simp [session_table_get]
    cases hip : tc.is_ip4 <;>
      simp only [session_lookup_add_half_open, hget, hip, Bool.false_eq_true,
        if_false, if_true, clib_bihash_add, clib_bihash_add6,
        session_table_init] <;>
      refine ⟨by trivial, ?_, ?_⟩ <;>
      simp [hip, set_table, session_table_is_alloced,
        session_lookup_half_open_handle, session_table_get_for_fib_index,
        session_table_get, halloc, session_table_init,
        List.get?_set_eq_of_lt, make_v4_ss_kv_from_tc, make_v6_ss_kv_from_tc]

/-- Claim C7 amended, witness: in the empty state the non-creating
removals fail with the state unchanged and the handle query is invalid;
adding a half-open entry succeeds and allocates. -/
theorem claim_C7_witness :
    session_lookup_del_half_open s_empty tc0 = (-1, s_empty) ∧
    session_lookup_half_open_handle s_empty tc0 =
      HALF_OPEN_LOOKUP_INVALID_VALUE ∧
    session_lookup_del_connection s_empty tc0 = (-1, s_empty) ∧
    session_lookup_del_session_endpoint s_empty 0
        ⟨true, 9, ⟨9, 9⟩, 12, 6, 0⟩ = (-1, s_empty) ∧
    (session_lookup_add_half_open s_empty tc0 77).1 = 0 :=
  ⟨(claim_C7_amended s_empty tc0 ⟨true, 9, ⟨9, 9⟩, 12, 6, 0⟩ 0 77).1 rfl,
   (claim_C7_amended s_empty tc0 ⟨true, 9, ⟨9, 9⟩, 12, 6, 0⟩ 0 77).2.1 rfl,
   (claim_C7_amended s_empty tc0 ⟨true, 9, ⟨9, 9⟩, 12, 6, 0⟩ 0 77).2.2.1 rfl,
   (claim_C7_amended s_empty tc0 ⟨true, 9, ⟨9, 9⟩, 12, 6, 0⟩ 0 77).2.2.2.1
     rfl,
   ((claim_C7_amended s_empty tc0 ⟨true, 9, ⟨9, 9⟩, 12, 6, 0⟩ 0 77).2.2.2.2
     rfl).1⟩

/-- After an established miss, the thread-checked and non-thread-checked
IPv4 lookups return the same connection (the out-parameter may still be
set to FILTERED by the thread-checked variant on the drop path). -/
theorem wt4_agrees_post_established (env : session_env)
    (s : session_lookup_state)
    (fib_index lcl rmt lcl_port rmt_port proto thread_index result : Nat)
    (st : session_table_t)
    (hst : session_table_get_for_fib_index s FIB_PROTOCOL_IP4 fib_index =
      some st)
    (hmiss : st.v4_session_hash
      (make_v4_ss_kv lcl rmt lcl_port rmt_port proto) = none) :
    (session_lookup_connection_wt4 env s fib_index lcl rmt lcl_port rmt_port
        proto thread_index result).1 =
      session_lookup_connection4 env s fib_index lcl rmt lcl_port rmt_port
        proto := by
  simp only [session_lookup_connection_wt4, session_lookup_connection4,
    hst, hmiss]
  repeat' split
  all_goals simp_all

/-- After an established miss, the thread-checked and non-thread-checked
IPv6 lookups return the same connection. -/
theorem wt6_agrees_post_established (env : session_env)
    (s : session_lookup_state) (fib_index : Nat) (lcl6 rmt6 : ip6_address_t)
    (lcl_port rmt_port proto thread_index result : Nat)
    (st : session_table_t)
    (hst : session_table_get_for_fib_index s FIB_PROTOCOL_IP6 fib_index =
      some st)
    (hmiss : st.v6_session_hash
      (make_v6_ss_kv lcl6 rmt6 lcl_port rmt_port proto) = none) :
    (session_lookup_connection_wt6 env s fib_index lcl6 rmt6 lcl_port
        rmt_port proto thread_index result).1 =
      session_lookup_connection6 env s fib_index lcl6 rmt6 lcl_port rmt_port
        proto := by
  simp only [session_lookup_connection_wt6, session_lookup_connection6,
    hst, hmiss]
  repeat' split
  all_goals simp_all

/-- Claim C9: the non-thread-checked variants follow the identical
fallback chain and differ only at the established-hit step. With no
table, or on an established miss (half-open, rules, listener and
not-found paths), both variants return the same connection; on an
established hit the non-thread-checked variant always returns the
resolved connection, which the thread-checked variant returns exactly
when the handle's thread is the calling thread, reporting WRONG_THREAD
otherwise. -/
theorem claim_C9 (env : session_env) (s : session_lookup_state)
    (fib_index lcl rmt lcl_port rmt_port proto thread_index result : Nat)
    (lcl6 rmt6 : ip6_address_t) :
    ((session_table_get_for_fib_index s FIB_PROTOCOL_IP4 fib_index = none →
      session_lookup_connection_wt4 env s fib_index lcl rmt lcl_port
          rmt_port proto thread_index result = (none, result) ∧
      session_lookup_connection4 env s fib_index lcl rmt lcl_port rmt_port
          proto = none) ∧
     (∀ st, session_table_get_for_fib_index s FIB_PROTOCOL_IP4 fib_index =
          some st →
       (st.v4_session_hash (make_v4_ss_kv lcl rmt lcl_port rmt_port proto) =
          none →
        (session_lookup_connection_wt4 env s fib_index lcl rmt lcl_port
            rmt_port proto thread_index result).1 =
          session_lookup_connection4 env s fib_index lcl rmt lcl_port
            rmt_port proto) ∧
       (∀ value,
         st.v4_session_hash (make_v4_ss_kv lcl rmt lcl_port rmt_port
            proto) = some value →
         session_lookup_connection4 env s fib_index lcl rmt lcl_port
             rmt_port proto =
           some (.connection proto
             (env.session_connection_index (u32_of value)
               (u32_of (value / pow32)))
             (u32_of (value / pow32))) ∧
         (u32_of (value / pow32) = thread_index →
          session_lookup_connection_wt4 env s fib_index lcl rmt lcl_port
              rmt_port proto thread_index result =
            (session_lookup_connection4 env s fib_index lcl rmt lcl_port
              rmt_port proto, result)) ∧
         (u32_of (value / pow32) ≠ thread_index →
          session_lookup_connection_wt4 env s fib_index lcl rmt lcl_port
              rmt_port proto thread_index result =
            (none, SESSION_LOOKUP_RESULT_WRONG_THREAD))))) ∧
    ((session_table_get_for_fib_index s FIB_PROTOCOL_IP6 fib_index = none →
      session_lookup_connection_wt6 env s fib_index lcl6 rmt6 lcl_port
          rmt_port proto thread_index result = (none, result) ∧
      session_lookup_connection6 env s fib_index lcl6 rmt6 lcl_port
          rmt_port proto = none) ∧
     (∀ st, session_table_get_for_fib_index s FIB_PROTOCOL_IP6 fib_index =
          some st →
       (st.v6_session_hash (make_v6_ss_kv lcl6 rmt6 lcl_port rmt_port
            proto) = none →
        (session_lookup_connection_wt6 env s fib_index lcl6 rmt6 lcl_port
            rmt_port proto thread_index result).1 =
          session_lookup_connection6 env s fib_index lcl6 rmt6 lcl_port
            rmt_port proto) ∧
       (∀ value,
         st.v6_session_hash (make_v6_ss_kv lcl6 rmt6 lcl_port rmt_port
            proto) = some value →
         session_lookup_connection6 env s fib_index lcl6 rmt6 lcl_port
             rmt_port proto =
           some (.connection proto
             (env.session_connection_index (u32_of value)
               (u32_of (value / pow32)))
             (u32_of (value / pow32))) ∧
         (u32_of (value / pow32) = thread_index →
          session_lookup_connection_wt6 env s fib_index lcl6 rmt6 lcl_port
              rmt_port proto thread_index result =
            (session_lookup_connection6 env s fib_index lcl6 rmt6 lcl_port
              rmt_port proto, result)) ∧
         (u32_of (value / pow32) ≠ thread_index →
          session_lookup_connection_wt6 env s fib_index lcl6 rmt6 lcl_port
              rmt_port proto thread_index result =
            (none, SESSION_LOOKUP_RESULT_WRONG_THREAD))))) := by
  constructor
  · constructor
    · intro h
      constructor <;>
        simp only [session_lookup_connection_wt4,
          session_lookup_connection4, h]
    · intro st hst
      constructor
      · intro hmiss
        exact wt4_agrees_post_established env s fib_index lcl rmt lcl_port
          rmt_port proto thread_index result st hst hmiss
      · intro value hv
        refine ⟨?_, ?_, ?_⟩
        · simp only [session_lookup_connection4, hst, hv]
        · intro heq
          simp only [session_lookup_connection_wt4,
            session_lookup_connection4, hst, hv, heq, ne_eq,
            not_true_eq_false, if_false]
        · intro hne
          simp only [session_lookup_connection_wt4, hst, hv, if_pos hne]
  · constructor
    · intro h
      constructor <;>
        simp only [session_lookup_connection_wt6,
          session_lookup_connection6, h]
    · intro st hst
      constructor
      · intro hmiss
        exact wt6_agrees_post_established env s fib_index lcl6 rmt6
          lcl_port rmt_port proto thread_index result st hst hmiss
      · intro value hv
        refine ⟨?_, ?_, ?_⟩
        · simp only [session_lookup_connection6, hst, hv]
        · intro heq
          simp only [session_lookup_connection_wt6,
            session_lookup_connection6, hst, hv, heq, ne_eq,
            not_true_eq_false, if_false]
        · intro hne
          simp only [session_lookup_connection_wt6, hst, hv, if_pos hne]

/-- Claim C9, witness: on s1's established tuple (1,2,10,20,TCP), the
non-thread-checked lookup returns the resolved connection while the
thread-checked lookup called from thread 2 reports WRONG_THREAD. -/
theorem claim_C9_witness :
    session_lookup_connection4 env0 s1 0 1 2 10 20 6 =
      some (.connection 6
        (env0.session_connection_index (u32_of (pow32 + 5))
          (u32_of ((pow32 + 5) / pow32)))
        (u32_of ((pow32 + 5) / pow32))) ∧
    session_lookup_connection_wt4 env0 s1 0 1 2 10 20 6 2 0 =
      (none, SESSION_LOOKUP_RESULT_WRONG_THREAD) :=
  ⟨(((claim_C9 env0 s1 0 1 2 10 20 6 2 0 ⟨0, 0⟩ ⟨0, 0⟩).1.2 st0 rfl).2
      (pow32 + 5) (by decide)).1,
   (((claim_C9 env0 s1 0 1 2 10 20 6 2 0 ⟨0, 0⟩ ⟨0, 0⟩).1.2 st0 rfl).2
      (pow32 + 5) (by decide)).2.2 (by decide)⟩
